import Mathlib

/-!
Verification of the Klaviyo metric-dashboard client (`klaviyoService.js`)
against its natural-language specification.  The service code is embedded
shallowly: each JavaScript function becomes a Lean function over explicit
environments describing upstream HTTP outcomes, and the spec's claims are
proved or refuted about those definitions.
-/

namespace Klaviyo

/-! ## JavaScript value helpers (truthiness, `a || b`, template printing) -/

/-- Truthiness of a JS string-or-undefined value: `undefined`, `null` and
`""` are falsy, every other string is truthy. -/
def jsTruthyStr : Option String → Bool
  | none => false
  | some s => s ≠ ""

/-- JS `a || b` on string-or-undefined values: yields `a` when truthy,
otherwise yields `b` unchanged (even when `b` is itself falsy). -/
def jsOrStr (a b : Option String) : Option String :=
  if jsTruthyStr a then a else b

/-- Interpolating a possibly-undefined string into a template literal:
`undefined` prints as `"undefined"`. -/
def showJsStr : Option String → String
  | none => "undefined"
  | some s => s

/-! ## Upstream error envelope and HTTP outcomes -/

/-- One entry of the upstream error envelope `{errors: [{title, detail}]}`. -/
structure ErrObj where
  title : Option String
  detail : Option String
deriving Repr, DecidableEq

/-- The decoded body attached to a non-2xx axios error
(`error.response.data`). -/
structure ErrBody where
  errors : Option (List ErrObj)
  message : Option String
deriving Repr, DecidableEq

/-- Outcome of one attempted HTTP call, as axios reports it: a 2xx decoded
body, a non-2xx response with status and error body, or a network-level
failure carrying `error.message`. -/
inductive HttpOutcome (α : Type) where
  | success (body : α)
  | httpError (status : Nat) (body : ErrBody)
  | transportFailure (msg : String)
deriving Repr, DecidableEq

/-! ## Retry-hint parsing: `detail.match(/(\d+)\s*second/i)` -/

/-- Numeric value of a digit run, as `parseInt` reads the capture group. -/
def digitsVal (ds : List Char) : Nat :=
  ds.foldl (fun a c => a * 10 + (c.toNat - 48)) 0

/-- Leftmost match of the regex `(\d+)\s*second` (case-insensitive) in a
character list, returning the value of the digit capture.  At each digit
position the digit run is taken greedily; the regex admits no other
backtracking because a shorter digit capture would leave a digit where
`second` must start. -/
def findRetryHint : List Char → Option Nat
  | [] => none
  | c :: cs =>
    if c.isDigit then
      let ds := (c :: cs).takeWhile Char.isDigit
      let rest := (c :: cs).dropWhile Char.isDigit
      if "second".toList.isPrefixOf ((rest.dropWhile Char.isWhitespace).map Char.toLower)
      then some (digitsVal ds)
      else findRetryHint cs
    else findRetryHint cs

/-- The optional-chained read
`error.response?.data?.errors?.[0]?.detail?.match(...)`: produces a hint
only when the envelope has a first error object with a detail that
matches the regex. -/
def retryHintOf (body : ErrBody) : Option Nat :=
  match body.errors with
  | some (e :: _) =>
    match e.detail with
    | some d => findRetryHint d.toList
    | none => none
  | _ => none

/-- Backoff delay for a 429 response: `N * 1000` ms when the detail text
carries an `N second` hint, else the 1000 ms default. -/
def waitTimeFor (body : ErrBody) : Nat :=
  match retryHintOf body with
  | some n => n * 1000
  | none => 1000

/-! ## Non-throttling error message extraction -/

/-- The axios default `error.message` for a non-2xx response. -/
def axiosErrMessage (status : Nat) : String :=
  "Request failed with status code " ++ toString status

/-- Message selection of the non-throttling branch of `makeRequest`:
`errors[0].detail || errors[0].title` when an errors array is present
(an empty array makes the unguarded `errors[0].detail` access throw a
`TypeError`), else a truthy `data.message`, else the axios message. -/
def extractedErrorMessage (status : Nat) (body : ErrBody) : Except String String :=
  match body.errors with
  | some [] =>
    Except.error "TypeError: Cannot read properties of undefined (reading 'detail')"
  | some (e :: _) => Except.ok (showJsStr (jsOrStr e.detail e.title))
  | none =>
    match body.message with
    | some m => Except.ok (if m = "" then axiosErrMessage status else m)
    | none => Except.ok (axiosErrMessage status)

/-- The error ultimately thrown for a non-2xx response that is not being
retried: `new Error('Klaviyo API Error: ' + errorMessage)`, or the raw
`TypeError` when the envelope held an empty errors array. -/
def httpFailureMessage (status : Nat) (body : ErrBody) : String :=
  match extractedErrorMessage status body with
  | .ok m => "Klaviyo API Error: " ++ m
  | .error t => t

/-! ## `makeRequest`: rate-limited call with retry on 429 -/

/-- Trace of one logical `makeRequest` call: the final result (decoded
body or thrown error message), the backoff delays slept in order, and
the number of HTTP requests actually issued. -/
structure ReqTrace (α : Type) where
  result : Except String α
  delays : List Nat
  requests : Nat
deriving Repr

/-- The retry cap of `makeRequest` (`const maxRetries = 3`). -/
def maxRetries : Nat := 3

/-- Recursion of `makeRequest` over the attempt counter.  `attempts i` is
the upstream outcome of the request issued with `retryCount = i`.  The
`gas` argument only bounds the structural recursion; `maxRetries + 1` gas
is always sufficient because the 429 branch requires
`retryCount < maxRetries`. -/
def makeRequestGo {α : Type} (attempts : Nat → HttpOutcome α) (retryCount : Nat) :
    Nat → ReqTrace α
  | 0 => ⟨.error "unreachable: gas exhausted", [], 0⟩
  | gas + 1 =>
    match attempts retryCount with
    | .success b => ⟨.ok b, [], 1⟩
    | .httpError status body =>
      if status = 429 ∧ retryCount < maxRetries then
        let t := makeRequestGo attempts (retryCount + 1) gas
        ⟨t.result, waitTimeFor body :: t.delays, t.requests + 1⟩
      else
        ⟨.error (httpFailureMessage status body), [], 1⟩
    | .transportFailure m => ⟨.error ("Klaviyo API Error: " ++ m), [], 1⟩

/-- A top-level `makeRequest` call (external callers pass `retryCount = 0`). -/
def makeRequest {α : Type} (attempts : Nat → HttpOutcome α) : ReqTrace α :=
  makeRequestGo attempts 0 (maxRetries + 1)

/-! ## Rate limiter (`rateLimit`) as an interleaving semantics

`rateLimit` runs on the single-threaded JS event loop, so it executes in
atomic slices separated only by `await` points: one slice reads the clock
and `lastRequestTime` and either finishes immediately (no wait needed,
admission recorded in the same slice) or starts a `setTimeout`; the second
slice, scheduled when the timer fires, records the admission.  A caller is
one task; a schedule decides which ready task runs next and how much time
passes. -/

/-- Progress of one task through the body of `rateLimit`. -/
inductive RLCaller where
  | ready
  | waiting (resumeAt : Nat)
  | done (admitAt : Nat)
deriving Repr, DecidableEq

/-- Shared process state: the event-loop clock and the service-wide
`lastRequestTime` field, plus each caller's progress. -/
structure RLSys where
  clock : Nat
  last : Nat
  callers : List RLCaller
deriving Repr, DecidableEq

/-- One schedule entry: let time pass, or run the next atomic slice of
caller `i`. -/
inductive RLStep where
  | tick (n : Nat)
  | run (i : Nat)
deriving Repr, DecidableEq

/-- Execute one schedule entry against the system, with minimum interval
`m` (`minRequestInterval`).  A `ready` caller executes the
read-compute-branch slice; a `waiting` caller may run once its timer is
due (`setTimeout` never fires early), and then writes
`lastRequestTime = Date.now()` and returns admitted. -/
def rlStep (m : Nat) (sys : RLSys) : RLStep → Option RLSys
  | .tick n => some { sys with clock := sys.clock + n }
  | .run i =>
    match sys.callers[i]? with
    | some .ready =>
      let timeSince := sys.clock - sys.last
      if timeSince < m then
        some { sys with callers := sys.callers.set i (.waiting (sys.clock + (m - timeSince))) }
      else
        some { sys with last := sys.clock, callers := sys.callers.set i (.done sys.clock) }
    | some (.waiting t) =>
      if t ≤ sys.clock then
        some { sys with last := sys.clock, callers := sys.callers.set i (.done sys.clock) }
      else none
    | _ => none

/-- Run a whole schedule; `none` when some entry is not enabled. -/
def rlRun (m : Nat) (sys : RLSys) : List RLStep → Option RLSys
  | [] => some sys
  | s :: rest =>
    match rlStep m sys s with
    | some sys' => rlRun m sys' rest
    | none => none

/-- Admission times recorded by completed callers. -/
def admissions (sys : RLSys) : List Nat :=
  sys.callers.filterMap fun c =>
    match c with
    | .done t => some t
    | _ => none

/-! ## Metric catalog resolution -/

/-- One catalog entry as the resolvers read it: `id`, the v3 location
`attributes.name`, and a possible legacy top-level `name`. -/
structure Metric where
  id : String
  attrName : Option String
  legacyName : Option String
deriving Repr, DecidableEq

/-- The name expression `m?.attributes?.name || m?.name || ''` used by
every resolver. -/
def nameOf (m : Metric) : String :=
  showJsStr (jsOrStr m.attrName (jsOrStr m.legacyName (some "")))

/-- Characters of a string lowered, the comparison form used by
`toLowerCase()` on both sides of every name comparison. -/
def lowerChars (s : String) : List Char :=
  s.toList.map Char.toLower

/-- Exact case-insensitive name match. -/
def exactMatch (metricName : String) (m : Metric) : Bool :=
  lowerChars (nameOf m) = lowerChars metricName

/-- Occurrence of `p` as a contiguous run inside a character list, the
semantics of JS `String.prototype.includes`. -/
def occursIn (p : List Char) : List Char → Bool
  | [] => p.isEmpty
  | c :: t => p.isPrefixOf (c :: t) || occursIn p t

/-- Case-insensitive substring match (`name.toLowerCase().includes(...)`). -/
def substringMatch (searchName : String) (m : Metric) : Bool :=
  occursIn (lowerChars searchName) (lowerChars (nameOf m))

/-- `findMetricIdByName`: scans the catalog for an exact case-insensitive
name match and returns its id, else `null`.  It never throws: a failed
catalog load has already been degraded to an empty list by `getMetrics`,
and the not-found case returns `null` rather than raising. -/
def findMetricIdByName (metrics : List Metric) (metricName : String) : Option String :=
  match metrics.find? (exactMatch metricName) with
  | some m => some m.id
  | none => none

/-- The inline `findMetricId` helper of `getDashboardMetrics` (also of
`getCampaignMetrics`/`getFlowMetrics`): first catalog entry whose name
contains the search string case-insensitively. -/
def findMetricId (metrics : List Metric) (searchName : String) : Option String :=
  match metrics.find? (substringMatch searchName) with
  | some m => some m.id
  | none => none

/-- The inline `findExactMetricId` helper of `getDashboardMetrics`. -/
def findExactMetricId (metrics : List Metric) (exactName : String) : Option String :=
  match metrics.find? (exactMatch exactName) with
  | some m => some m.id
  | none => none

/-- Resolution of the Placed Order metric id in `getDashboardMetrics`:
`findExactMetricId('Placed Order') || findMetricId('placed order')`. -/
def resolvePlacedOrder (metrics : List Metric) : Option String :=
  jsOrStr (findExactMetricId metrics "Placed Order") (findMetricId metrics "placed order")

/-! ## Aggregate queries (`queryMetricAggregates`)

Numeric values are modelled as integers; the claims under study concern
only the additive structure of the measurements. -/

/-- A measurement value inside one result group: a scalar, an array of
per-interval buckets, or JSON null.  Array elements that are not numbers
are represented by `none` (`parseFloat` yields `NaN` for them, which the
code folds in as 0). -/
inductive MeasVal where
  | num (n : Int)
  | arr (xs : List (Option Int))
  | null
deriving Repr, DecidableEq

/-- JS truthiness of a measurement value: 0 and null are falsy, arrays
(objects) are always truthy. -/
def jsTruthyMV : Option MeasVal → Bool
  | none => false
  | some (.num n) => n ≠ 0
  | some (.arr _) => true
  | some .null => false

/-- The `measurements` object of one result group. -/
structure Measurements where
  unique : Option MeasVal
  count : Option MeasVal
  sum_value : Option MeasVal
deriving Repr, DecidableEq

/-- Selection of the populated measurement key, by JS truthiness in the
source's order `unique`, `count`, `sum_value`. -/
def measurementValue (ms : Measurements) : Option MeasVal :=
  if jsTruthyMV ms.unique then ms.unique
  else if jsTruthyMV ms.count then ms.count
  else if jsTruthyMV ms.sum_value then ms.sum_value
  else none

/-- `parseFloat` of one bucket followed by the `isNaN` guard: non-numbers
count as 0. -/
def bucketVal : Option Int → Int
  | some n => n
  | none => 0

/-- The scalar extracted from the selected measurement: arrays are summed
bucket-wise, scalars pass through, a falsy or missing selection yields 0. -/
def extractedValue (ms : Measurements) : Int :=
  match measurementValue ms with
  | some (.num n) => n
  | some (.arr xs) => (xs.map bucketVal).sum
  | _ => 0

/-- The first element of a group's `dimensions` array, read as an object
with the four recognised attribution keys. -/
structure Dimension where
  attributedMessage : Option String
  message : Option String
  flow : Option String
  campaign : Option String
deriving Repr, DecidableEq

/-- Grouping key for one dimension object:
`$attributed_message || $message || $flow || $campaign || 'unknown'`. -/
def dimensionValue (d : Dimension) : String :=
  showJsStr (jsOrStr d.attributedMessage
    (jsOrStr d.message (jsOrStr d.flow (jsOrStr d.campaign (some "unknown")))))

/-- One entry of `response.data.attributes.data`. -/
structure AggGroup where
  measurements : Option Measurements
  dimensions : Option (List Dimension)
deriving Repr, DecidableEq

/-- The list at `response.data.attributes.data`; `none` models any break
in that optional-chained path. -/
abbrev AggResponse := Option (List AggGroup)

/-- Options object accepted by `queryMetricAggregates`, with the source's
defaults. -/
structure AggOptions where
  measurements : List String := ["count"]
  filters : List String := []
  interval : Option String := none
  timezone : String := "UTC"
  groupBy : Option (List String) := none
deriving Repr, DecidableEq

/-- The POST body `data.attributes` built by `queryMetricAggregates`:
`filter` is attached only when the filters array is non-empty, `interval`
only when truthy, `by` only when a non-empty array. -/
structure AggBody where
  measurements : List String
  metric_id : String
  timezone : String
  filter : Option (List String)
  interval : Option String
  groupBy : Option (List String)
deriving Repr, DecidableEq

/-- Request-body construction of `queryMetricAggregates`. -/
def buildAggBody (metricId : String) (opts : AggOptions) : AggBody :=
  { measurements := opts.measurements
    metric_id := metricId
    timezone := opts.timezone
    filter := if opts.filters.length > 0 then some opts.filters else none
    interval :=
      match opts.interval with
      | some s => if s = "" then none else some s
      | none => none
    groupBy :=
      match opts.groupBy with
      | some l => if l.length > 0 then some l else none
      | none => none }

/-- Accumulation into the `groupedData` object: JS property update keeps
first-insertion order and adds in place. -/
def addEntry : List (String × Int) → String → Int → List (String × Int)
  | [], k, v => [(k, v)]
  | (k', v') :: rest, k, v =>
    if k' = k then (k', v' + v) :: rest else (k', v') :: addEntry rest k v

/-- Result of one aggregate query: the running `total` and the `grouped`
object in insertion order. -/
structure AggResult where
  total : Int
  grouped : List (String × Int)
deriving Repr, DecidableEq

/-- The per-group body of the `forEach` over `response.data.attributes.data`:
the extracted scalar is added to `total`, and, when the caller requested a
truthy `by` and the group carries a non-empty `dimensions` array, the same
scalar is keyed into `grouped` under the first dimension's value. -/
def aggStep (groupByReq : Bool) (acc : AggResult) (g : AggGroup) : AggResult :=
  let ms := g.measurements.getD ⟨none, none, none⟩
  let value := extractedValue ms
  let total := acc.total + value
  let grouped :=
    if groupByReq then
      match g.dimensions with
      | some (d :: _) => addEntry acc.grouped (dimensionValue d) value
      | _ => acc.grouped
    else acc.grouped
  ⟨total, grouped⟩

/-- Truthiness of the raw `by` option as tested at the grouping site
(`if (by && group?.dimensions && ...)`): any non-null array is truthy. -/
def jsTruthyByOpt : Option (List String) → Bool
  | none => false
  | some _ => true

/-- Parsing of a successful aggregate response into `{total, grouped}`. -/
def parseAggResponse (resp : AggResponse) (groupBy : Option (List String)) : AggResult :=
  match resp with
  | none => ⟨0, []⟩
  | some groups => groups.foldl (aggStep (jsTruthyByOpt groupBy)) ⟨0, []⟩

/-- `queryMetricAggregates`: builds the body, issues exactly one request
through the retrying executor (modelled by `env`, the outcome of that
request keyed by the body), parses a success, and converts any failure to
the in-place default `{ total: 0, grouped: {} }` via its own catch; the
request log records the single upstream call. -/
def queryMetricAggregates (env : AggBody → Except String AggResponse)
    (metricId : String) (opts : AggOptions) :
    Except String AggResult × List AggBody :=
  let body := buildAggBody metricId opts
  (match env body with
   | .ok resp => .ok (parseAggResponse resp opts.groupBy)
   | .error _ => .ok ⟨0, []⟩,
   [body])

/-! ## Revenue calculation (`calculateRevenueByMetricId`) -/

/-- Options object of `calculateRevenueByMetricId`. -/
structure RevOptions where
  startDate : Option String := none
  endDate : Option String := none
  interval : Option String := none
  timezone : String := "UTC"
  attributedMessage : Option String := none
deriving Repr, DecidableEq

/-- The filter array built by `calculateRevenueByMetricId`: the two date
filters are always pushed, with `startDate || oneMonthAgo.toISOString()`
and `endDate || now.toISOString()` as bounds, and an attributed-message
equality filter is appended when requested.  `nowIso` and
`oneMonthAgoIso` stand for the two `Date` values computed at call time. -/
def revenueFilters (opts : RevOptions) (nowIso oneMonthAgoIso : String) : List String :=
  let s := showJsStr (jsOrStr opts.startDate (some oneMonthAgoIso))
  let e := showJsStr (jsOrStr opts.endDate (some nowIso))
  ["greater-or-equal(datetime," ++ s ++ ")", "less-than(datetime," ++ e ++ ")"] ++
    (if jsTruthyStr opts.attributedMessage then
      ["equals($attributed_message,\"" ++ showJsStr opts.attributedMessage ++ "\")"]
    else [])

/-- The `metric-aggregate` POST body of `calculateRevenueByMetricId`:
`sum_value` measurement, the always-present filter array, no grouping. -/
def revenueAggBody (metricId : String) (opts : RevOptions) (nowIso oneMonthAgoIso : String) :
    AggBody :=
  { measurements := ["sum_value"]
    metric_id := metricId
    timezone := opts.timezone
    filter := some (revenueFilters opts nowIso oneMonthAgoIso)
    interval :=
      match opts.interval with
      | some s => if s = "" then none else some s
      | none => none
    groupBy := none }

/-- Revenue extracted from one group: a truthy `sum_value` is summed
bucket-wise when it is an array and taken as a scalar otherwise. -/
def groupRevenue (g : AggGroup) : Int :=
  let ms := g.measurements.getD ⟨none, none, none⟩
  if jsTruthyMV ms.sum_value then
    match ms.sum_value with
    | some (.num n) => n
    | some (.arr xs) => (xs.map bucketVal).sum
    | _ => 0
  else 0

/-- Event count extracted from one group via the truthy `count`
measurement (`parseInt` per bucket). -/
def groupEventCount (g : AggGroup) : Int :=
  let ms := g.measurements.getD ⟨none, none, none⟩
  if jsTruthyMV ms.count then
    match ms.count with
    | some (.num n) => n
    | some (.arr xs) => (xs.map bucketVal).sum
    | _ => 0
  else 0

/-- Result shape of the revenue calculators. -/
structure RevenueResult where
  totalRevenue : Int
  eventCount : Int
  eventsWithRevenue : Option Nat
  method : String
deriving Repr, DecidableEq

/-- One event of the `/events/` fallback: the
`attributes.properties.$value` field if present. -/
structure RevEvent where
  value : Option Int
deriving Repr, DecidableEq

/-- `calculateRevenueFromEvents`: sums the truthy `$value` properties of
the first page of events; any failure is caught and degraded to zeros. -/
def calculateRevenueFromEvents (outcome : Except String (Option (List RevEvent))) :
    RevenueResult :=
  match outcome with
  | .ok resp =>
    let events := resp.getD []
    let acc := events.foldl
      (fun (acc : Int × Nat) ev =>
        match ev.value with
        | some v => if v ≠ 0 then (acc.1 + v, acc.2 + 1) else acc
        | none => acc)
      (0, 0)
    ⟨acc.1, events.length, some acc.2, "events"⟩
  | .error _ => ⟨0, 0, some 0, "events"⟩

/-- `calculateRevenueByMetricId`: issues the aggregate query with the
always-filtered body; on success folds the groups' `sum_value` and
`count`; on failure falls back to the event-based calculation. -/
def calculateRevenueByMetricId (aggEnv : AggBody → Except String AggResponse)
    (eventsEnv : Except String (Option (List RevEvent)))
    (metricId : String) (opts : RevOptions) (nowIso oneMonthAgoIso : String) :
    RevenueResult :=
  match aggEnv (revenueAggBody metricId opts nowIso oneMonthAgoIso) with
  | .ok resp =>
    match resp with
    | some groups =>
      let acc := groups.foldl
        (fun (acc : Int × Int) g => (acc.1 + groupRevenue g, acc.2 + groupEventCount g))
        (0, 0)
      ⟨acc.1, acc.2, none, "metric-aggregates"⟩
    | none => ⟨0, 0, none, "metric-aggregates"⟩
  | .error _ => calculateRevenueFromEvents eventsEnv

/-! ## Paginated event fetch (`getAllEventsByMetricId`) -/

/-- One page of the `/events/` list endpoint: the `data` items (opaque,
numbered) and the `links.next` absolute URL. -/
structure EventsPage where
  data : Option (List Nat)
  next : Option String
deriving Repr, DecidableEq

/-- One GET request as issued through `makeRequest`: endpoint path plus
query params. -/
structure EvReq where
  endpoint : String
  params : List (String × String)
deriving Repr, DecidableEq

/-- `u = response?.links?.next || null`: a missing or empty `next` ends
the loop. -/
def truthyNext (p : EventsPage) : Option String :=
  match p.next with
  | some u => if u = "" then none else some u
  | none => none

/-- Scheme part of `new URL(u)`: everything after the first `"://"`. -/
def afterScheme : List Char → Option (List Char)
  | [] => none
  | ':' :: '/' :: '/' :: rest => some rest
  | _ :: rest => afterScheme rest

/-- Path-and-search of a host-prefixed remainder: from the first `'/'`. -/
def pathFrom : List Char → List Char
  | [] => []
  | '/' :: rest => '/' :: rest
  | _ :: rest => pathFrom rest

/-- `new URL(url).pathname + urlObj.search` for an absolute URL; `none`
models the `TypeError` thrown on a string with no scheme separator. -/
def urlPathAndSearch (u : String) : Option String :=
  match afterScheme u.toList with
  | none => none
  | some rest =>
    match pathFrom rest with
    | [] => some "/"
    | l => some (String.mk l)

/-- Removal of the duplicated `/api` root before reusing a cursor URL
against the executor's base URL (`path.substring(4)` when the path
starts with `/api/`). -/
def stripApiRoot (p : String) : String :=
  if "/api/".toList.isPrefixOf p.toList then String.mk (p.toList.drop 4) else p

/-- Loop state: the first iteration issues the filter request, later
iterations follow a stored `links.next` URL. -/
inductive LoopUrl where
  | first
  | nextUrl (u : String)
deriving Repr, DecidableEq

/-- The request issued for one iteration of the `while` loop. -/
def pageRequest (filter : String) : LoopUrl → Except String EvReq
  | .first => .ok ⟨"/events/", [("filter", filter), ("page[size]", "100")]⟩
  | .nextUrl u =>
    match urlPathAndSearch u with
    | none => .error "TypeError: Invalid URL"
    | some p => .ok ⟨stripApiRoot p, []⟩

/-- The `while (firstRequest || url)` loop of `getAllEventsByMetricId`,
bounded by fuel (`none` when the fuel runs out before the upstream chain
does).  Returns the accumulated items or the thrown error, plus the log
of requests issued. -/
def fetchLoop (env : EvReq → Except String EventsPage) (filter : String) :
    Nat → Option LoopUrl → List Nat → List EvReq →
    Option (Except String (List Nat) × List EvReq)
  | 0, _, _, _ => none
  | _ + 1, none, acc, reqs => some (.ok acc, reqs)
  | fuel + 1, some cur, acc, reqs =>
    match pageRequest filter cur with
    | .error e => some (.error e, reqs)
    | .ok req =>
      match env req with
      | .error e => some (.error e, reqs ++ [req])
      | .ok page =>
        let acc' := acc ++ (page.data.getD [])
        fetchLoop env filter fuel ((truthyNext page).map .nextUrl) acc' (reqs ++ [req])

/-- The filter string `equals(metric_id,"<metricId>")`. -/
def metricFilter (metricId : String) : String :=
  "equals(metric_id,\"" ++ metricId ++ "\")"

/-- `getAllEventsByMetricId`: runs the pagination loop from the first
request; any thrown error is caught and degraded to `{ data: [] }`. -/
def getAllEventsByMetricId (env : EvReq → Except String EventsPage)
    (metricId : String) (fuel : Nat) : Option (List Nat × List EvReq) :=
  match fetchLoop env (metricFilter metricId) fuel (some .first) [] [] with
  | none => none
  | some (.ok items, reqs) => some (items, reqs)
  | some (.error _, reqs) => some ([], reqs)

/-! ## Dashboard build (`getDashboardMetrics`) -/

/-- A list-endpoint response envelope (`{data: [...]}`). -/
structure ListResp (α : Type) where
  data : Option (List α)
deriving Repr, DecidableEq

/-- Result of `getAccount`: either the upstream `/accounts/` payload
(opaque) or the hard-coded fallback object
`{ name: 'Klaviyo Account', contact_email: 'N/A' }` returned by its
catch. -/
inductive AccountVal where
  | fromApi (payload : String)
  | stub
deriving Repr, DecidableEq

/-- Upstream-outcome environment for one `getDashboardMetrics` run: each
field is the outcome of the corresponding `makeRequest` call.
`metricsAt i` is the outcome of the `i`-th `GET /metrics/` call (the
catalog is fetched three times: once in the fan-out, once for metric-id
resolution, once inside `getAllMetricsWithDetails`).  `nowIso` and
`oneMonthAgoIso` stand for the `Date` values computed during the run. -/
structure DashEnv where
  accounts : Except String String
  metricsAt : Nat → Except String (ListResp Metric)
  campaignsEmail : Except String (ListResp String)
  campaignsSms : Except String (ListResp String)
  lists : Except String (ListResp String)
  flows : Except String (ListResp String)
  agg : AggBody → Except String AggResponse
  metricById : String → Except String String
  eventsFallback : Except String (Option (List RevEvent))
  nowIso : String
  oneMonthAgoIso : String

/-- `getAccount`: returns the payload, degrading any failure to the
fallback object. -/
def getAccount (r : Except String String) : AccountVal :=
  match r with
  | .ok a => .fromApi a
  | .error _ => .stub

/-- `getMetrics`: returns the catalog response, degrading any failure to
`{ data: [] }`.  This is the only catalog loader; it never throws. -/
def getMetrics (r : Except String (ListResp Metric)) : ListResp Metric :=
  match r with
  | .ok resp => resp
  | .error _ => ⟨some []⟩

/-- `getCampaigns`: one call per channel, each degraded to `{data: []}`
on failure, results unioned in email-then-sms order. -/
def getCampaigns (email sms : Except String (ListResp String)) : ListResp String :=
  let e := match email with | .ok r => r | .error _ => ⟨some []⟩
  let s := match sms with | .ok r => r | .error _ => ⟨some []⟩
  ⟨some ((e.data.getD []) ++ (s.data.getD []))⟩

/-- `getLists`, degraded to `{data: []}` on failure. -/
def getLists (r : Except String (ListResp String)) : ListResp String :=
  match r with
  | .ok resp => resp
  | .error _ => ⟨some []⟩

/-- `getFlows`, degraded to `{data: []}` on failure. -/
def getFlows (r : Except String (ListResp String)) : ListResp String :=
  match r with
  | .ok resp => resp
  | .error _ => ⟨some []⟩

/-- `getMetricById`, degraded to `null` on failure. -/
def getMetricById (r : Except String String) : Option String :=
  match r with
  | .ok d => some d
  | .error _ => none

/-- Return shape of `getAllMetricsWithDetails` (`total` is absent on the
early empty-catalog return). -/
structure MetricsWithDetails where
  metrics : List Metric
  details : List String
  total : Option Nat
deriving Repr, DecidableEq

/-- `getAllMetricsWithDetails`: reloads the catalog, then fetches details
for at most the first 20 metrics sequentially, skipping per-metric
failures. -/
def getAllMetricsWithDetails (env : DashEnv) : MetricsWithDetails :=
  let metrics := (getMetrics (env.metricsAt 2)).data.getD []
  if metrics.length = 0 then ⟨[], [], none⟩
  else
    let details := (metrics.take 20).filterMap fun m => getMetricById (env.metricById m.id)
    ⟨metrics, details, some metrics.length⟩

/-- The date filters of the event-count queries: trailing one-month
window ending now. -/
def dashDateFilters (nowIso oneMonthAgoIso : String) : List String :=
  ["greater-or-equal(datetime," ++ oneMonthAgoIso ++ ")",
   "less-than(datetime," ++ nowIso ++ ")"]

/-- `getEventCountByMetricId`: a falsy id short-circuits to 0, otherwise
one count-measurement aggregate query over the trailing month; its own
failure path cannot fire because `queryMetricAggregates` never throws. -/
def getEventCountByMetricId (env : DashEnv) (id : Option String) : Int :=
  if jsTruthyStr id then
    match (queryMetricAggregates env.agg (showJsStr id)
        { measurements := ["count"],
          filters := dashDateFilters env.nowIso env.oneMonthAgoIso }).1 with
    | .ok r => r.total
    | .error _ => 0
  else 0

/-- The four named event counters of the snapshot. -/
structure EventMetrics where
  placedOrder : Int
  viewedProduct : Int
  addedToCart : Int
  activeOnSite : Int
deriving Repr, DecidableEq

/-- The revenue section of the snapshot (`revenueOverTime` is never
populated). -/
structure RevenueMetrics where
  totalRevenue : Int
  revenueByEmail : Int
  revenueOverTime : List Int
deriving Repr, DecidableEq

/-- The dashboard snapshot returned by `getDashboardMetrics`. -/
structure Snapshot where
  account : AccountVal
  metrics : ListResp Metric
  metricsWithDetails : MetricsWithDetails
  campaigns : ListResp String
  lists : ListResp String
  flows : ListResp String
  campaignCount : Nat
  flowCount : Nat
  eventMetrics : EventMetrics
  revenueMetrics : RevenueMetrics
  timestamp : String
deriving Repr, DecidableEq

/-- The snapshot assembled by the body of `getDashboardMetrics`.  Every
sub-fetch is individually degraded, so assembly is total; the
`Promise.allSettled` slots always hold fulfilled values without an
`error` field because each getter catches internally. -/
def snapshotOf (env : DashEnv) : Snapshot :=
  let campaignsData := getCampaigns env.campaignsEmail env.campaignsSms
  let flowsData := getFlows env.flows
  let catalog := (getMetrics (env.metricsAt 1)).data.getD []
  let placedOrderId := resolvePlacedOrder catalog
  let viewedProductId := findMetricId catalog "viewed product"
  let addedToCartId := findMetricId catalog "added to cart"
  let activeOnSiteId := findMetricId catalog "active on site"
  let eventMetrics : EventMetrics :=
    ⟨getEventCountByMetricId env placedOrderId,
     getEventCountByMetricId env viewedProductId,
     getEventCountByMetricId env addedToCartId,
     getEventCountByMetricId env activeOnSiteId⟩
  let revenueMetrics : RevenueMetrics :=
    if jsTruthyStr placedOrderId then
      let rd := calculateRevenueByMetricId env.agg env.eventsFallback
        (showJsStr placedOrderId) {} env.nowIso env.oneMonthAgoIso
      ⟨rd.totalRevenue, rd.totalRevenue, []⟩
    else ⟨0, 0, []⟩
  { account := getAccount env.accounts
    metrics := getMetrics (env.metricsAt 0)
    metricsWithDetails := getAllMetricsWithDetails env
    campaigns := campaignsData
    lists := getLists env.lists
    flows := flowsData
    campaignCount := (campaignsData.data.getD []).length
    flowCount := (flowsData.data.getD []).length
    eventMetrics := eventMetrics
    revenueMetrics := revenueMetrics
    timestamp := env.nowIso }

/-- `getDashboardMetrics`: the outer try/catch rethrows, so the call
fails exactly when the body throws; every sub-step of the body is
degraded internally, leaving no throwing path. -/
def getDashboardMetrics (env : DashEnv) : Except String Snapshot :=
  .ok (snapshotOf env)

/-! ## The class body as a method table (duplicate `getCampaignMetrics`) -/

/-- Tag for the two same-named method bodies (other methods are carried
by name). -/
inductive MethodImpl where
  | campaignMetricsAggregate
  | campaignMetricsMessages
  | other (name : String)
deriving Repr, DecidableEq

/-- The `KlaviyoService` class body, in source order.  The
aggregate-based `getCampaignMetrics(options)` is declared first, the
message-list `getCampaignMetrics(campaignId)` later. -/
def klaviyoServiceMethods : List (String × MethodImpl) :=
  [("wait", .other "wait"),
   ("rateLimit", .other "rateLimit"),
   ("makeRequest", .other "makeRequest"),
   ("getAccount", .other "getAccount"),
   ("getMetrics", .other "getMetrics"),
   ("getMetricById", .other "getMetricById"),
   ("getMetricStatistics", .other "getMetricStatistics"),
   ("getAllMetricsWithDetails", .other "getAllMetricsWithDetails"),
   ("getCampaigns", .other "getCampaigns"),
   ("getCampaignMetrics", .campaignMetricsAggregate),
   ("getFlowMetrics", .other "getFlowMetrics"),
   ("queryMetricAggregates", .other "queryMetricAggregates"),
   ("getLists", .other "getLists"),
   ("getProfiles", .other "getProfiles"),
   ("getEvents", .other "getEvents"),
   ("getCampaignMetrics", .campaignMetricsMessages),
   ("getFlows", .other "getFlows"),
   ("getMetricData", .other "getMetricData"),
   ("getEventsByMetricId", .other "getEventsByMetricId"),
   ("getAllEventsByMetricId", .other "getAllEventsByMetricId"),
   ("calculateRevenueByMetricId", .other "calculateRevenueByMetricId"),
   ("calculateRevenueFromEvents", .other "calculateRevenueFromEvents"),
   ("findMetricIdByName", .other "findMetricIdByName"),
   ("getEventsByMetricName", .other "getEventsByMetricName"),
   ("getDashboardMetrics", .other "getDashboardMetrics")]

/-- JS class-body semantics: methods are installed on the prototype in
declaration order, a later declaration of the same name overwriting the
earlier one; dispatch reads the surviving entry. -/
def methodLookup (decls : List (String × MethodImpl)) (name : String) : Option MethodImpl :=
  decls.foldl (fun acc p => if p.1 = name then some p.2 else acc) none

/-- Behaviour of the surviving `getCampaignMetrics(campaignId)`: one GET
to `/campaigns/{campaignId}/campaign-messages/`, returning the payload or
`null` on any failure. -/
def getCampaignMetricsById {α : Type} (outcome : Except String α) (campaignId : String) :
    String × Option α :=
  ("/campaigns/" ++ campaignId ++ "/campaign-messages/", outcome.toOption)

/-! ## Claims -/

/-- C10: the `KlaviyoService` class body declares `getCampaignMetrics`
twice; prototype installation lets the later single-argument definition
(the `/campaigns/{id}/campaign-messages/` fetch, `null` on failure) win,
so every instance dispatch reaches it and the earlier aggregate-based
computation is unreachable through the public method name. -/
theorem duplicate_getCampaignMetrics_dispatch :
    methodLookup klaviyoServiceMethods "getCampaignMetrics" =
      some MethodImpl.campaignMetricsMessages
  ∧ MethodImpl.campaignMetricsMessages ≠ MethodImpl.campaignMetricsAggregate
  ∧ (∀ (α : Type) (outcome : Except String α) (campaignId : String),
      (getCampaignMetricsById outcome campaignId).1 =
        "/campaigns/" ++ campaignId ++ "/campaign-messages/")
  ∧ (∀ (α : Type) (e : String) (campaignId : String),
      (getCampaignMetricsById (α := α) (.error e) campaignId).2 = none) := by
  refine ⟨by decide, by decide, ?_, ?_⟩
  · intro α outcome campaignId
    rfl
  · intro α e campaignId
    rfl

/-- C3 (code bug): under concurrent invocation the rate limiter does not
keep a `minRequestInterval` gap between admissions.  Three `acquire`
calls — one at t=900, two entering together at t=1000 with the last
admission at 900 — both read `lastRequestTime` before either write, both
sleep to t=1150, and both are admitted at 1150: two consecutive
admissions with gap 0 < 250. -/
theorem rateLimiter_concurrent_admissions_race :
    rlRun 250 ⟨900, 0, [.ready, .ready, .ready]⟩
        [.run 0, .tick 100, .run 1, .run 2, .tick 150, .run 1, .run 2] =
      some ⟨1150, 1150, [.done 900, .done 1150, .done 1150]⟩
  ∧ admissions ⟨1150, 1150, [.done 900, .done 1150, .done 1150]⟩ = [900, 1150, 1150]
  ∧ ¬ (250 ≤ 1150 - 1150) := by
  refine ⟨by decide, by decide, by decide⟩

/-- C2: on HTTP 429 `makeRequest` sleeps `N * 1000` ms when the error
detail matches an `N second` hint and 1000 ms otherwise, retries with the
attempt counter capped at `maxRetries = 3`, and after the 3rd throttled
retry fails (the throttled failure is raised through the generic error
branch, so it carries the last 429 body's message); exactly 4 requests
are ever issued, never a 5th. -/
theorem throttle_retry_behavior :
    (∀ bodies : Nat → ErrBody,
      makeRequest (α := Unit) (fun i => .httpError 429 (bodies i)) =
        ⟨.error (httpFailureMessage 429 (bodies 3)),
         [waitTimeFor (bodies 0), waitTimeFor (bodies 1), waitTimeFor (bodies 2)], 4⟩)
  ∧ (∀ (d : String) (n : Nat), findRetryHint d.toList = some n →
      waitTimeFor ⟨some [⟨none, some d⟩], none⟩ = n * 1000)
  ∧ (∀ d : String, findRetryHint d.toList = none →
      waitTimeFor ⟨some [⟨none, some d⟩], none⟩ = 1000)
  ∧ findRetryHint "Request was throttled. Expected available in 2 seconds.".toList = some 2
  ∧ waitTimeFor ⟨some [⟨none, some "Request was throttled. Expected available in 2 seconds."⟩],
      none⟩ = 2000 := by
  refine ⟨?_, ?_, ?_, by decide, by decide⟩
  · intro bodies
    simp [makeRequest, makeRequestGo, maxRetries]
  · intro d n h
    have h' : findRetryHint d.data = some n := h
    simp [waitTimeFor, retryHintOf, h']
  · intro d h
    have h' : findRetryHint d.data = none := h
    simp [waitTimeFor, retryHintOf, h']

/-- C2 witness: the throttle behaviour evaluated at a concrete detail
with a hint and at one without. -/
theorem throttle_retry_behavior_witness :
    waitTimeFor ⟨some [⟨none, some "Expected available in 2 seconds."⟩], none⟩ = 2000
  ∧ waitTimeFor ⟨some [⟨none, some "Too many requests."⟩], none⟩ = 1000 :=
  ⟨throttle_retry_behavior.2.1 "Expected available in 2 seconds." 2 (by decide),
   throttle_retry_behavior.2.2.1 "Too many requests." (by decide)⟩

/-- Concrete error envelope used to exhibit that the thrown failure does
not record the HTTP status. -/
def envelopeBoom : ErrBody := ⟨some [⟨none, some "boom"⟩], none⟩

/-- C9 counterexample: a 500 and a 503 response with the same error body
produce the very same thrown failure, so the failure cannot carry the
response status, contrary to the claim's `ApiError{status, message}`. -/
theorem apiError_status_not_carried_cex :
    makeRequest (α := Unit) (fun _ => .httpError 500 envelopeBoom) =
      makeRequest (α := Unit) (fun _ => .httpError 503 envelopeBoom)
  ∧ makeRequest (α := Unit) (fun _ => .httpError 500 envelopeBoom) =
      ⟨.error "Klaviyo API Error: boom", [], 1⟩ :=
  ⟨rfl, rfl⟩

/-- C9 as amended: on a non-2xx, non-429 response the executor fails with
a single un-retried error whose message is `"Klaviyo API Error: "`
followed by the first truthy of `errors[0].detail`, `errors[0].title`
(printed even when undefined), a truthy envelope `message`, or the
generic transport message; the status itself appears only in that
generic fallback text, not as a field of the failure. -/
theorem apiError_message_priority (status : Nat) (body : ErrBody)
    (hstat : status ≠ 429) :
    (∀ t d rest, body.errors = some (⟨t, some d⟩ :: rest) → d ≠ "" →
      makeRequest (α := Unit) (fun _ => .httpError status body) =
        ⟨.error ("Klaviyo API Error: " ++ d), [], 1⟩)
  ∧ (∀ t rest, body.errors = some (⟨t, none⟩ :: rest) →
      makeRequest (α := Unit) (fun _ => .httpError status body) =
        ⟨.error ("Klaviyo API Error: " ++ showJsStr t), [], 1⟩)
  ∧ (∀ m, body.errors = none → body.message = some m → m ≠ "" →
      makeRequest (α := Unit) (fun _ => .httpError status body) =
        ⟨.error ("Klaviyo API Error: " ++ m), [], 1⟩)
  ∧ (body.errors = none → body.message = none →
      makeRequest (α := Unit) (fun _ => .httpError status body) =
        ⟨.error ("Klaviyo API Error: " ++ axiosErrMessage status), [], 1⟩) := by
  have hcond : ¬ (status = 429 ∧ 0 < maxRetries) := by
    intro h
    exact hstat h.1
  refine ⟨?_, ?_, ?_, ?_⟩
  · intro t d rest herr hd
    simp [makeRequest, makeRequestGo, hcond, httpFailureMessage, extractedErrorMessage,
      herr, jsOrStr, jsTruthyStr, hd, showJsStr]
  · intro t rest herr
    simp [makeRequest, makeRequestGo, hcond, httpFailureMessage, extractedErrorMessage,
      herr, jsOrStr, jsTruthyStr]
  · intro m herr hmsg hm
    simp [makeRequest, makeRequestGo, hcond, httpFailureMessage, extractedErrorMessage,
      herr, hmsg, hm]
  · intro herr hmsg
    simp [makeRequest, makeRequestGo, hcond, httpFailureMessage, extractedErrorMessage,
      herr, hmsg]

/-- C9 witness: the amended message-priority behaviour at concrete
inputs covering all four fallback stages. -/
theorem apiError_message_priority_witness :
    makeRequest (α := Unit) (fun _ => .httpError 500 ⟨some [⟨some "T", some "D"⟩], none⟩) =
      ⟨.error "Klaviyo API Error: D", [], 1⟩
  ∧ makeRequest (α := Unit) (fun _ => .httpError 502 ⟨some [⟨some "T", none⟩], none⟩) =
      ⟨.error "Klaviyo API Error: T", [], 1⟩
  ∧ makeRequest (α := Unit) (fun _ => .httpError 403 ⟨none, some "denied"⟩) =
      ⟨.error "Klaviyo API Error: denied", [], 1⟩
  ∧ makeRequest (α := Unit) (fun _ => .httpError 418 ⟨none, none⟩) =
      ⟨.error ("Klaviyo API Error: " ++ axiosErrMessage 418), [], 1⟩ :=
  ⟨(apiError_message_priority 500 ⟨some [⟨some "T", some "D"⟩], none⟩ (by decide)).1
      (some "T") "D" [] rfl (by decide),
   (apiError_message_priority 502 ⟨some [⟨some "T", none⟩], none⟩ (by decide)).2.1
      (some "T") [] rfl,
   (apiError_message_priority 403 ⟨none, some "denied"⟩ (by decide)).2.2.1
      "denied" rfl rfl (by decide),
   (apiError_message_priority 418 ⟨none, none⟩ (by decide)).2.2.2 rfl rfl⟩

/-- Sum of the values stored in a `grouped` object. -/
def sumGrouped (r : AggResult) : Int :=
  (r.grouped.map Prod.snd).sum

/-- Adding `v` under any key raises the grouped sum by exactly `v`. -/
theorem sum_addEntry (l : List (String × Int)) (k : String) (v : Int) :
    ((addEntry l k v).map Prod.snd).sum = (l.map Prod.snd).sum + v := by
  induction l with
  | nil => simp [addEntry]
  | cons p rest ih =>
    obtain ⟨k', v'⟩ := p
    by_cases h : k' = k
    · simp [addEntry, h]
      ring
    · simp [addEntry, h, ih]
      ring

/-- Without grouping, the fold only accumulates the extracted scalars
into `total` and never touches `grouped`. -/
theorem foldl_aggStep_false (groups : List AggGroup) (acc : AggResult) :
    groups.foldl (aggStep false) acc =
      ⟨acc.total +
        (groups.map fun g => extractedValue (g.measurements.getD ⟨none, none, none⟩)).sum,
       acc.grouped⟩ := by
  induction groups generalizing acc with
  | nil => simp
  | cons g rest ih =>
    rw [List.foldl_cons, ih]
    simp [aggStep]
    ring

/-- With grouping, every group that carries a non-empty `dimensions`
array contributes equally to `total` and to the grouped sum. -/
theorem foldl_aggStep_true_diff (groups : List AggGroup) :
    ∀ acc : AggResult, (∀ g ∈ groups, ∃ d ds, g.dimensions = some (d :: ds)) →
      (groups.foldl (aggStep true) acc).total -
          sumGrouped (groups.foldl (aggStep true) acc) =
        acc.total - sumGrouped acc := by
  induction groups with
  | nil =>
    intro acc _
    simp
  | cons g rest ih =>
    intro acc h
    obtain ⟨d, ds, hdim⟩ := h g (by simp)
    have hrest : ∀ g' ∈ rest, ∃ d' ds', g'.dimensions = some (d' :: ds') := by
      intro g' hg'
      exact h g' (List.mem_cons_of_mem _ hg')
    rw [List.foldl_cons, ih _ hrest]
    simp [aggStep, hdim, sumGrouped, sum_addEntry]

/-- C6 counterexample: with grouping requested, a result group that
carries no `dimensions` array is added to `total` but never to
`grouped`, so `total` differs from the sum over `grouped`. -/
theorem aggregate_total_grouped_mismatch_cex :
    parseAggResponse (some [⟨some ⟨none, some (.num 7), none⟩, none⟩])
        (some ["$attributed_message"]) = ⟨7, []⟩
  ∧ (7 : Int) ≠ sumGrouped ⟨7, []⟩ := by
  refine ⟨by decide, by decide⟩

/-- C6 as amended: with grouping requested, `total` equals the sum over
`grouped` provided every result group carries a non-empty `dimensions`
array (groups without one contribute to `total` only); without grouping
`grouped` stays empty and `total` is the sum of the extracted scalars,
interval-bucketed arrays being summed into their group's scalar. -/
theorem aggregate_total_invariant :
    (∀ (groups : List AggGroup) (gb : List String),
      (∀ g ∈ groups, ∃ d ds, g.dimensions = some (d :: ds)) →
      (parseAggResponse (some groups) (some gb)).total =
        sumGrouped (parseAggResponse (some groups) (some gb)))
  ∧ (∀ groups : List AggGroup,
      (parseAggResponse (some groups) none).grouped = []
      ∧ (parseAggResponse (some groups) none).total =
          (groups.map fun g => extractedValue (g.measurements.getD ⟨none, none, none⟩)).sum)
  ∧ parseAggResponse
      (some [⟨some ⟨none, none, some (.arr [some 10, some 20, some 30])⟩, none⟩]) none =
      ⟨60, []⟩ := by
  refine ⟨?_, ?_, by decide⟩
  · intro groups gb h
    have hd := foldl_aggStep_true_diff groups ⟨0, []⟩ h
    simp [parseAggResponse, jsTruthyByOpt] at hd ⊢
    simp [sumGrouped] at hd ⊢
    omega
  · intro groups
    have hf := foldl_aggStep_false groups ⟨0, []⟩
    simp [parseAggResponse, jsTruthyByOpt, hf]

/-- C6 witness: the amended invariant evaluated on a concrete grouped
response whose two groups both carry dimensions. -/
theorem aggregate_total_invariant_witness :
    (parseAggResponse
        (some [⟨some ⟨none, some (.num 3), none⟩, some [⟨some "c1", none, none, none⟩]⟩,
               ⟨some ⟨none, some (.num 4), none⟩, some [⟨some "c2", none, none, none⟩]⟩])
        (some ["$attributed_message"])).total =
      sumGrouped (parseAggResponse
        (some [⟨some ⟨none, some (.num 3), none⟩, some [⟨some "c1", none, none, none⟩]⟩,
               ⟨some ⟨none, some (.num 4), none⟩, some [⟨some "c2", none, none, none⟩]⟩])
        (some ["$attributed_message"])) :=
  aggregate_total_invariant.1
    [⟨some ⟨none, some (.num 3), none⟩, some [⟨some "c1", none, none, none⟩]⟩,
     ⟨some ⟨none, some (.num 4), none⟩, some [⟨some "c2", none, none, none⟩]⟩]
    ["$attributed_message"]
    (by
      intro g hg
      simp at hg
      rcases hg with h | h <;> rw [h] <;> exact ⟨_, _, rfl⟩)

/-- C7 counterexample: when the underlying request fails, the aggregate
executor does not surface that failure — its catch converts it to a
successful `{ total: 0, grouped: {} }`. -/
theorem aggregate_failure_not_surfaced_cex :
    (queryMetricAggregates (fun _ => .error "Klaviyo API Error: boom") "m1" {}).1 =
      .ok ⟨0, []⟩
  ∧ (queryMetricAggregates (fun _ => .error "Klaviyo API Error: boom") "m1" {}).1 ≠
      .error "Klaviyo API Error: boom" := by
  refine ⟨rfl, by simp [queryMetricAggregates]⟩

/-- C7 as amended: `queryMetricAggregates` issues exactly one upstream
request (no retry), and on failure of that request it degrades the
result itself to `{ total: 0, grouped: {} }`, returning successfully to
its caller in every case instead of propagating the executor's failure. -/
theorem aggregate_executor_no_retry_degrades
    (env : AggBody → Except String AggResponse) (metricId : String) (opts : AggOptions) :
    (queryMetricAggregates env metricId opts).2 = [buildAggBody metricId opts]
  ∧ (∀ e, env (buildAggBody metricId opts) = .error e →
      (queryMetricAggregates env metricId opts).1 = .ok ⟨0, []⟩)
  ∧ ∃ r, (queryMetricAggregates env metricId opts).1 = .ok r := by
  refine ⟨rfl, ?_, ?_⟩
  · intro e h
    simp [queryMetricAggregates, h]
  · cases henv : env (buildAggBody metricId opts) with
    | ok resp =>
      exact ⟨parseAggResponse resp opts.groupBy, by simp [queryMetricAggregates, henv]⟩
    | error e => exact ⟨⟨0, []⟩, by simp [queryMetricAggregates, henv]⟩

/-- C7 witness: the amended behaviour at a concrete always-failing
executor. -/
theorem aggregate_executor_no_retry_degrades_witness :
    (queryMetricAggregates (fun _ => .error "ApiError 500") "m2" {}).2 =
      [buildAggBody "m2" {}]
  ∧ (queryMetricAggregates (fun _ => .error "ApiError 500") "m2" {}).1 = .ok ⟨0, []⟩ :=
  ⟨(aggregate_executor_no_retry_degrades (fun _ => .error "ApiError 500") "m2" {}).1,
   (aggregate_executor_no_retry_degrades (fun _ => .error "ApiError 500") "m2" {}).2.1
      "ApiError 500" rfl⟩

/-- C4: a `sum_value` revenue aggregate built by
`calculateRevenueByMetricId` always carries a filter array opening with
the two date-range predicates; when the caller supplies no dates the
window defaults to the trailing month `[oneMonthAgo, now)`.  The
dashboard's count queries are likewise always date-filtered, so no
aggregate issued by the build reaches the upstream unfiltered. -/
theorem revenue_query_always_filtered :
    (∀ (metricId : String) (opts : RevOptions) (nowIso oneMonthAgoIso : String),
      (revenueAggBody metricId opts nowIso oneMonthAgoIso).filter =
        some (revenueFilters opts nowIso oneMonthAgoIso)
      ∧ (revenueAggBody metricId opts nowIso oneMonthAgoIso).measurements = ["sum_value"]
      ∧ ∃ s e rest, revenueFilters opts nowIso oneMonthAgoIso =
          ["greater-or-equal(datetime," ++ s ++ ")", "less-than(datetime," ++ e ++ ")"]
            ++ rest)
  ∧ (∀ nowIso oneMonthAgoIso : String,
      revenueFilters {} nowIso oneMonthAgoIso =
        ["greater-or-equal(datetime," ++ oneMonthAgoIso ++ ")",
         "less-than(datetime," ++ nowIso ++ ")"])
  ∧ (∀ metricId nowIso oneMonthAgoIso tz : String,
      (buildAggBody metricId
        { measurements := ["count"], filters := dashDateFilters nowIso oneMonthAgoIso,
          timezone := tz }).filter = some (dashDateFilters nowIso oneMonthAgoIso)) := by
  refine ⟨?_, ?_, ?_⟩
  · intro metricId opts nowIso oneMonthAgoIso
    exact ⟨rfl, rfl,
      ⟨showJsStr (jsOrStr opts.startDate (some oneMonthAgoIso)),
       showJsStr (jsOrStr opts.endDate (some nowIso)), _, rfl⟩⟩
  · intro nowIso oneMonthAgoIso
    rfl
  · intro metricId nowIso oneMonthAgoIso tz
    rfl

/-- First-match semantics of `List.find?`: entries failing the predicate
are skipped and the first satisfying entry is returned. -/
theorem find?_skip {α : Type} (p : α → Bool) :
    ∀ (pre : List α) (m : α) (post : List α),
      (∀ x ∈ pre, p x = false) → p m = true →
      (pre ++ m :: post).find? p = some m := by
  intro pre
  induction pre with
  | nil =>
    intro m post _ hm
    simp [List.find?_cons, hm]
  | cons a rest ih =>
    intro m post h hm
    have ha := h a (by simp)
    simp only [List.cons_append, List.find?_cons, ha]
    exact ih m post (fun x hx => h x (by simp [hx])) hm

/-- Catalog in which `"Placed Order"` occurs only as a proper substring
of a metric name. -/
def catalogSub : List Metric := [⟨"m1", some "Custom Placed Order", none⟩]

/-- C5 counterexample: `findMetricIdByName` returns not-found for a name
that has a case-insensitive substring match (but no exact match) in the
catalog — it has no substring fallback, contrary to the claim. -/
theorem resolveId_no_substring_fallback_cex :
    findMetricIdByName catalogSub "Placed Order" = none
  ∧ findMetricId catalogSub "placed order" = some "m1" := by
  refine ⟨by decide, by decide⟩

/-- C5 as amended: `findMetricIdByName` performs only the exact
case-insensitive match, returning the first match's id or not-found
(`null`, never thrown); the dashboard's inline `findMetricId` helper
performs only the first-hit case-insensitive substring match; the two are
combined (exact first, then substring) only for the Placed Order
resolution inside `getDashboardMetrics`; and an unresolved Placed Order
leaves its dependent counter and the revenue at 0. -/
theorem metric_name_resolution :
    (∀ (catalog : List Metric) (name : String),
      (∀ m ∈ catalog, exactMatch name m = false) →
      findMetricIdByName catalog name = none)
  ∧ (∀ (pre : List Metric) (m : Metric) (post : List Metric) (name : String),
      (∀ m' ∈ pre, exactMatch name m' = false) → exactMatch name m = true →
      findMetricIdByName (pre ++ m :: post) name = some m.id)
  ∧ (∀ (catalog : List Metric) (name : String),
      (∀ m ∈ catalog, substringMatch name m = false) →
      findMetricId catalog name = none)
  ∧ (∀ (pre : List Metric) (m : Metric) (post : List Metric) (name : String),
      (∀ m' ∈ pre, substringMatch name m' = false) → substringMatch name m = true →
      findMetricId (pre ++ m :: post) name = some m.id)
  ∧ (∀ (catalog : List Metric) (i : String),
      findExactMetricId catalog "Placed Order" = some i → i ≠ "" →
      resolvePlacedOrder catalog = some i)
  ∧ (∀ catalog : List Metric,
      findExactMetricId catalog "Placed Order" = none →
      resolvePlacedOrder catalog = findMetricId catalog "placed order")
  ∧ (∀ env : DashEnv,
      resolvePlacedOrder ((getMetrics (env.metricsAt 1)).data.getD []) = none →
      (snapshotOf env).eventMetrics.placedOrder = 0
      ∧ (snapshotOf env).revenueMetrics.totalRevenue = 0) := by
  refine ⟨?_, ?_, ?_, ?_, ?_, ?_, ?_⟩
  · intro catalog name h
    have hfind : catalog.find? (exactMatch name) = none := by
      rw [List.find?_eq_none]
      intro x hx
      simp [h x hx]
    simp [findMetricIdByName, hfind]
  · intro pre m post name h hm
    simp [findMetricIdByName, find?_skip (exactMatch name) pre m post h hm]
  · intro catalog name h
    have hfind : catalog.find? (substringMatch name) = none := by
      rw [List.find?_eq_none]
      intro x hx
      simp [h x hx]
    simp [findMetricId, hfind]
  · intro pre m post name h hm
    simp [findMetricId, find?_skip (substringMatch name) pre m post h hm]
  · intro catalog i h hi
    simp [resolvePlacedOrder, h, jsOrStr, jsTruthyStr, hi]
  · intro catalog h
    simp [resolvePlacedOrder, h, jsOrStr, jsTruthyStr]
  · intro env h
    refine ⟨?_, ?_⟩ <;>
      simp [snapshotOf, h, getEventCountByMetricId, jsTruthyStr]

/-- Environment whose catalog is empty, so no metric name resolves. -/
def noCatalogEnv : DashEnv :=
  { accounts := .ok "acct"
    metricsAt := fun _ => .ok ⟨some []⟩
    campaignsEmail := .ok ⟨some []⟩
    campaignsSms := .ok ⟨some []⟩
    lists := .ok ⟨some []⟩
    flows := .ok ⟨some []⟩
    agg := fun _ => .ok none
    metricById := fun _ => .ok "detail"
    eventsFallback := .ok (some [])
    nowIso := "2025-10-01T00:00:00.000Z"
    oneMonthAgoIso := "2025-09-01T00:00:00.000Z" }

/-- C5 witness: the amended resolution behaviour at concrete inputs —
first-exact-match lookup past a non-matching entry, and the zero default
when nothing resolves. -/
theorem metric_name_resolution_witness :
    findMetricIdByName
      ([⟨"a", some "Order Count", none⟩] ++ ⟨"b", some "placed order", none⟩ :: [])
      "Placed Order" = some "b"
  ∧ (snapshotOf noCatalogEnv).eventMetrics.placedOrder = 0 :=
  ⟨metric_name_resolution.2.1 [⟨"a", some "Order Count", none⟩]
      ⟨"b", some "placed order", none⟩ [] "Placed Order"
      (by
        intro m' hm'
        simp at hm'
        rw [hm']
        decide)
      (by decide),
   (metric_name_resolution.2.2.2.2.2.2 noCatalogEnv (by decide)).1⟩

/-- The upstream serves, from request `req`, a finite chain of pages
`ps` whose cursors lead through exactly the requests `rs`: each page with
a truthy `links.next` URL points, via its path-and-search with the
duplicated `/api` root stripped, at the request serving the rest of the
chain; the last page has no truthy cursor. -/
inductive PageChain (env : EvReq → Except String EventsPage) :
    EvReq → List EventsPage → List EvReq → Prop where
  | last {req : EvReq} {p : EventsPage}
      (hreq : env req = .ok p) (hnext : truthyNext p = none) :
      PageChain env req [p] [req]
  | step {req : EvReq} {p : EventsPage} {u pa : String}
      {ps : List EventsPage} {rs : List EvReq}
      (hreq : env req = .ok p) (hnext : truthyNext p = some u)
      (hurl : urlPathAndSearch u = some pa)
      (hrest : PageChain env ⟨stripApiRoot pa, []⟩ ps rs) :
      PageChain env req (p :: ps) (req :: rs)

/-- Running the pagination loop along a served chain appends every page's
items in arrival order and issues exactly the chain's requests. -/
theorem fetchLoop_chain (env : EvReq → Except String EventsPage) (filter : String)
    {ps : List EventsPage} {req : EvReq} {rs : List EvReq}
    (h : PageChain env req ps rs) :
    ∀ (fuel : Nat) (cur : LoopUrl) (acc : List Nat) (reqs0 : List EvReq),
      pageRequest filter cur = .ok req → ps.length < fuel →
      fetchLoop env filter fuel (some cur) acc reqs0 =
        some (.ok (acc ++ (ps.map fun p => p.data.getD []).flatten), reqs0 ++ rs) := by
  induction h with
  | last hreq hnext =>
    intro fuel cur acc reqs0 hcur hfuel
    match fuel, hfuel with
    | f + 2, _ =>
      simp only [fetchLoop, hcur, hreq, hnext, Option.map_none']
      simp
  | step hreq hnext hurl _ ih =>
    intro fuel cur acc reqs0 hcur hfuel
    match fuel, hfuel with
    | f + 1, hfuel =>
      simp only [fetchLoop, hcur, hreq, hnext, Option.map_some']
      rw [ih f (.nextUrl _) _ _ (by simp [pageRequest, hurl]) (by simpa using hfuel)]
      simp

/-- The first request issued by `getAllEventsByMetricId`. -/
def firstEvReq (metricId : String) : EvReq :=
  ⟨"/events/", [("filter", metricFilter metricId), ("page[size]", "100")]⟩

/-- C8: over any upstream chain, `getAllEventsByMetricId` returns the
concatenation of the pages' items in page-arrival order, issuing exactly
one request per page — the first from the filter parameters, each later
one verbatim from the path and query embedded in the previous page's
cursor with the duplicated `/api` root stripped — and no request at all
after a page whose `links.next` is null. -/
theorem paginated_fetch_concat :
    (∀ (env : EvReq → Except String EventsPage) (metricId : String)
        (ps : List EventsPage) (rs : List EvReq) (fuel : Nat),
      PageChain env (firstEvReq metricId) ps rs → ps.length + 1 < fuel →
      getAllEventsByMetricId env metricId fuel =
        some ((ps.map fun p => p.data.getD []).flatten, rs))
  ∧ (∀ (env : EvReq → Except String EventsPage) (req : EvReq)
        (ps : List EventsPage) (rs : List EvReq),
      PageChain env req ps rs → rs.length = ps.length) := by
  constructor
  · intro env metricId ps rs fuel hchain hfuel
    have hrun := fetchLoop_chain env (metricFilter metricId) hchain fuel .first [] []
      rfl (by omega)
    simp [getAllEventsByMetricId, hrun]
  · intro env req ps rs h
    induction h with
    | last _ _ => rfl
    | step _ _ _ _ ih => simpa using ih

/-- Concrete 3-page upstream: 100, 100 and 50 items, chained through two
absolute cursor URLs that duplicate the `/api` root. -/
def env3 : EvReq → Except String EventsPage := fun r =>
  if r = firstEvReq "m1" then
    .ok ⟨some (List.range 100), some "https://a.klaviyo.com/api/events/?page[cursor]=c2"⟩
  else if r = ⟨"/events/?page[cursor]=c2", []⟩ then
    .ok ⟨some (List.range' 100 100), some "https://a.klaviyo.com/api/events/?page[cursor]=c3"⟩
  else if r = ⟨"/events/?page[cursor]=c3", []⟩ then
    .ok ⟨some (List.range' 200 50), none⟩
  else .error "unexpected request"

set_option maxRecDepth 8000 in
/-- C8 witness: the 100/100/50 chain yields exactly 250 items in arrival
order and exactly the three requests, the later two taken verbatim from
the cursors with `/api` stripped. -/
theorem paginated_fetch_concat_witness :
    getAllEventsByMetricId env3 "m1" 5 =
      some (List.range 100 ++ (List.range' 100 100 ++ (List.range' 200 50 ++ [])),
        [firstEvReq "m1", ⟨"/events/?page[cursor]=c2", []⟩, ⟨"/events/?page[cursor]=c3", []⟩])
  ∧ (List.range 100 ++ (List.range' 100 100 ++ (List.range' 200 50 ++ []))).length = 250 := by
  have hchain : PageChain env3 (firstEvReq "m1")
      [⟨some (List.range 100), some "https://a.klaviyo.com/api/events/?page[cursor]=c2"⟩,
       ⟨some (List.range' 100 100), some "https://a.klaviyo.com/api/events/?page[cursor]=c3"⟩,
       ⟨some (List.range' 200 50), none⟩]
      [firstEvReq "m1", ⟨"/events/?page[cursor]=c2", []⟩, ⟨"/events/?page[cursor]=c3", []⟩] := by
    refine PageChain.step rfl rfl
        (show urlPathAndSearch "https://a.klaviyo.com/api/events/?page[cursor]=c2" =
          some "/api/events/?page[cursor]=c2" by decide) ?_
    refine PageChain.step rfl rfl
        (show urlPathAndSearch "https://a.klaviyo.com/api/events/?page[cursor]=c3" =
          some "/api/events/?page[cursor]=c3" by decide) ?_
    exact PageChain.last rfl rfl
  have h := paginated_fetch_concat.1 env3 "m1" _ _ 5 hchain (by decide)
  constructor
  · simpa using h
  · simp [List.length_append, List.length_range, List.length_range']

/-- Environment in which every upstream request fails, including all
three catalog loads. -/
def allFailEnv : DashEnv :=
  { accounts := .error "ApiError"
    metricsAt := fun _ => .error "ApiError"
    campaignsEmail := .error "ApiError"
    campaignsSms := .error "ApiError"
    lists := .error "ApiError"
    flows := .error "ApiError"
    agg := fun _ => .error "ApiError"
    metricById := fun _ => .error "ApiError"
    eventsFallback := .error "ApiError"
    nowIso := "T1"
    oneMonthAgoIso := "T0" }

/-- C1 counterexample: when the metric catalog load itself fails,
`getDashboardMetrics` still returns a snapshot (catalog degraded to
`{data: []}` by `getMetrics`' own catch, counters zeroed) — it does not
raise a hard failure, refuting the claimed "fails if and only if the
catalog load fails". -/
theorem catalog_failure_no_hard_failure_cex :
    getDashboardMetrics allFailEnv =
      .ok ⟨.stub, ⟨some []⟩, ⟨[], [], none⟩, ⟨some []⟩, ⟨some []⟩, ⟨some []⟩, 0, 0,
        ⟨0, 0, 0, 0⟩, ⟨0, 0, []⟩, "T1"⟩
  ∧ ∀ e, getDashboardMetrics allFailEnv ≠ .error e := by
  refine ⟨rfl, ?_⟩
  intro e h
  simp [getDashboardMetrics] at h

/-- C1 as amended: `getDashboardMetrics` never raises a hard failure —
for every upstream environment it returns a snapshot.  A failing flows
sub-fetch changes only `flows` (to `{data: []}`) and `flowCount` (to 0),
all other fields staying as in the same environment with flows
succeeding; a failing accounts sub-fetch degrades only `account` to the
stub object; and when every catalog load fails, the catalog, detailed
metrics, event counters and revenue all degrade to their empty/zero
defaults instead of aborting the build. -/
theorem dashboard_degrades_never_fails :
    (∀ env : DashEnv, getDashboardMetrics env = .ok (snapshotOf env))
  ∧ (∀ (env : DashEnv) (e : String),
      snapshotOf { env with flows := .error e } =
        { snapshotOf env with flows := ⟨some []⟩, flowCount := 0 })
  ∧ (∀ (env : DashEnv) (e : String),
      snapshotOf { env with accounts := .error e } =
        { snapshotOf env with account := .stub })
  ∧ (∀ env : DashEnv, (∀ i, ∃ err, env.metricsAt i = .error err) →
      (snapshotOf env).metrics = ⟨some []⟩
      ∧ (snapshotOf env).metricsWithDetails = ⟨[], [], none⟩
      ∧ (snapshotOf env).eventMetrics = ⟨0, 0, 0, 0⟩
      ∧ (snapshotOf env).revenueMetrics = ⟨0, 0, []⟩) := by
  refine ⟨fun env => rfl, fun env e => rfl, fun env e => rfl, ?_⟩
  intro env h
  obtain ⟨e0, h0⟩ := h 0
  obtain ⟨e1, h1⟩ := h 1
  obtain ⟨e2, h2⟩ := h 2
  refine ⟨?_, ?_, ?_, ?_⟩ <;>
    simp [snapshotOf, getMetrics, getAllMetricsWithDetails, getEventCountByMetricId,
      resolvePlacedOrder, findExactMetricId, findMetricId, jsOrStr, jsTruthyStr,
      h0, h1, h2]

/-- Environment where only the catalog loads fail; other sub-fetches
succeed with non-trivial data. -/
def metricsFailEnv : DashEnv :=
  { accounts := .ok "acct"
    metricsAt := fun _ => .error "ApiError: 500"
    campaignsEmail := .ok ⟨some ["c1"]⟩
    campaignsSms := .ok ⟨some []⟩
    lists := .ok ⟨some ["l1"]⟩
    flows := .ok ⟨some ["f1"]⟩
    agg := fun _ => .ok none
    metricById := fun _ => .ok "detail"
    eventsFallback := .ok (some [])
    nowIso := "2025-10-01T00:00:00.000Z"
    oneMonthAgoIso := "2025-09-01T00:00:00.000Z" }

/-- C1 witness: the amended degradation behaviour at a concrete
environment whose catalog loads fail and whose flows then additionally
fail. -/
theorem dashboard_degrades_never_fails_witness :
    getDashboardMetrics metricsFailEnv = .ok (snapshotOf metricsFailEnv)
  ∧ snapshotOf { metricsFailEnv with flows := .error "boom" } =
      { snapshotOf metricsFailEnv with flows := ⟨some []⟩, flowCount := 0 }
  ∧ (snapshotOf metricsFailEnv).eventMetrics = ⟨0, 0, 0, 0⟩ :=
  ⟨dashboard_degrades_never_fails.1 metricsFailEnv,
   dashboard_degrades_never_fails.2.1 metricsFailEnv "boom",
   (dashboard_degrades_never_fails.2.2.2 metricsFailEnv
      (fun _ => ⟨"ApiError: 500", rfl⟩)).2.2.1⟩

end Klaviyo
